import Mathlib

/-!
Verification development for the `pdf_reader` repository
(`src/pdf_reader/main.py`), as a shallow embedding in Lean 4.

The program downloads a PDF, detects titles and tables on each page,
associates each table with the nearest title above it, and writes each
table out as a delimited file named after its title.  The embedding
below models:

* Python strings as Lean `String` (a list of characters);
* vertical page coordinates as `Int` (the code only compares them);
* Python dictionaries as association lists with insertion-order and
  last-write-wins assignment semantics (`dictInsert`);
* the data the external library (`pdfplumber`) supplies for a page as a
  `Page` record: detected title matches, extracted cell grids, and the
  top coordinate of each detected table's bounding box;
* Python exceptions as `Except`/`Option` values; filesystem side
  effects as an explicit effect trace.
-/

namespace PdfReader

/-- A title match produced by `page.search(pattern)`: its text and its
vertical position `top` (page-local, increasing downward). -/
structure TitleMatch where
  text : String
  top : Int
deriving DecidableEq

/-- Python `s.replace("\n", "")` as used in `find_title_for_table`:
removes every occurrence of the one-character substring `"\n"`,
i.e. every newline character. -/
def stripNewlines (s : String) : String :=
  ⟨s.data.filter (fun c => c ≠ '\n')⟩

/-- `PDFReader.find_title_for_table(titles, table_top)`:

```python
title_top = max((title["top"] for title in titles if title["top"] < table_top), default=None)
if title_top:
    return next((title["text"].replace("\n", "") for title in titles if title["top"] == title_top), None)
return None
```

`max(..., default=None)` over the qualifying tops is `List.max?`; the
Python truthiness test `if title_top:` is false both for `None` and for
a title top equal to `0`, which the embedding keeps faithfully. -/
def find_title_for_table (titles : List TitleMatch) (table_top : Int) : Option String :=
  let title_top : Option Int :=
    ((titles.filter (fun t => t.top < table_top)).map (fun t => t.top)).max?
  match title_top with
  | some tt =>
      if tt ≠ 0 then
        (titles.find? (fun t => t.top == tt)).map (fun t => stripNewlines t.text)
      else none
  | none => none

/-- A pandas `DataFrame` as built by the page processor: ordered column
names and ordered rows of cell values. -/
structure DataFrame where
  columns : List String
  rows : List (List String)
deriving DecidableEq

/-- `pd.DataFrame(table[1:], columns=table[0])`: the first row of the
cell grid becomes the header, the rest become the data rows.  The two
failure modes inside the per-table `try` are modelled as `none`: an
empty grid (`table[0]` raises `IndexError`) and a data row whose length
differs from the header's (pandas raises a shape error). -/
def mk_dataframe (table : List (List String)) : Option DataFrame :=
  match table with
  | [] => none
  | header :: rest =>
      if rest.all (fun r => r.length == header.length) then
        some ⟨header, rest⟩
      else none

/-- A Python `dict` keyed by strings, as an insertion-ordered
association list. -/
abbrev Dict (V : Type) := List (String × V)

/-- Python `d[k]` lookup (the value of the first — and in a real dict,
only — pair with key `k`). -/
def dictGet {V : Type} (d : Dict V) (k : String) : Option V :=
  (d.find? (fun p => p.1 == k)).map Prod.snd

/-- Python `d[k] = v` assignment: if the key is present its value is
replaced in place, otherwise the pair is appended. -/
def dictInsert {V : Type} (d : Dict V) (k : String) (v : V) : Dict V :=
  if d.any (fun p => p.1 == k) then
    d.map (fun p => if p.1 == k then (k, v) else p)
  else
    d ++ [(k, v)]

/-- Python `d.update(other)`: assign every pair of `other` into `d`, in
`other`'s iteration order. -/
def dict_update {V : Type} (d other : Dict V) : Dict V :=
  other.foldl (fun acc p => dictInsert acc p.1 p.2) d

/-- The data the external library yields for one page, as consumed by
`extract_tables_from_page`:

* `titles`   — the matches returned by `page.search(self.title_pattern)`;
* `tables`   — the cell grids returned by `page.extract_tables(self.table_settings)`;
* `bboxTops` — `page.find_tables(self.table_settings)[i].bbox[1]` for each
  index `i` (top coordinate of each detected table's bounding box). -/
structure Page where
  titles : List TitleMatch
  tables : List (List (List String))
  bboxTops : List Int
deriving DecidableEq

/-- `PDFReader.extract_titles_from_page(page)`: a list comprehension
over `page.search(...)`, i.e. the identity on the search results. -/
def extract_titles_from_page (page : Page) : List TitleMatch :=
  page.titles

/-- The body of the per-table loop in `extract_tables_from_page`, for
one `(index, table)` pair.  Everything in the loop body sits inside a
`try`/`except` that logs and continues, so each failure path returns
the accumulator unchanged:

* `find_tables(...)[index]` raises `IndexError` when `index` is out of
  range of the bounding-box list;
* `if title:` skips `None` and the empty string (Python truthiness);
* `pd.DataFrame(...)` failure is `mk_dataframe _ = none`. -/
def process_one_table (titles : List TitleMatch) (bboxTops : List Int)
    (acc : Dict DataFrame) (it : Nat × List (List String)) : Dict DataFrame :=
  match bboxTops.get? it.1 with
  | none => acc
  | some table_bbox =>
      match find_title_for_table titles table_bbox with
      | none => acc
      | some title =>
          if title ≠ "" then
            match mk_dataframe it.2 with
            | none => acc
            | some df => dictInsert acc title df
          else acc

/-- `PDFReader.extract_tables_from_page(page, page_num)`: builds the
page's title → DataFrame dictionary.  `if not tables: return {}` is the
`isEmpty` branch; otherwise the enumerated tables are folded through
`process_one_table`. -/
def extract_tables_from_page (page : Page) : Dict DataFrame :=
  let titles := extract_titles_from_page page
  if page.tables.isEmpty then []
  else (page.tables.enum).foldl (process_one_table titles page.bboxTops) []

/-- The page loop of `extract_content_from_pdf`, after `pdfplumber.open`
succeeded: iterate the pages in document order and `dict.update` each
page's dictionary into the running combined dictionary. -/
def extract_content_loop (pages : List Page) : Dict DataFrame :=
  pages.foldl (fun combined page => dict_update combined (extract_tables_from_page page)) []

/-- A Python attribute slot: `absent` when the attribute was never
assigned (reading it raises `AttributeError`), `val v` when it holds
the Python value `v` (possibly `None`). -/
inductive Attr (α : Type) where
  | absent
  | val (v : Option α)
deriving DecidableEq

/-- The Python errors that the embedded fragments can raise. -/
inductive PyError where
  | attributeError
  | keyError
  | notLoadedError
  | processError
deriving DecidableEq

/-- Reading an attribute: `AttributeError` if it was never assigned. -/
def getattr {α : Type} : Attr α → Except PyError (Option α)
  | .absent => .error .attributeError
  | .val v => .ok v

/-- The in-memory PDF buffer (`BytesIO`), modelled by what
`pdfplumber.open` yields from it: `pages?` is `some pages` when the
document opens and parses, `none` when opening fails (corrupt input). -/
structure PdfBytes where
  pages? : Option (List Page)
deriving DecidableEq

/-- `d[k]` subscripting on a dict: `KeyError` when the key is absent. -/
def dict_subscript {V : Type} (d : Dict V) (k : String) : Except PyError V :=
  match dictGet d k with
  | some v => .ok v
  | none => .error .keyError

/-- The state of a `PDFReader` object.  `V` is the type of YAML values
in the configuration mapping.  Note the `pdf_file` attribute slot:
`__init__` never assigns it, and `extract_pdf_from_url` assigns it a
`BytesIO` (never `None`). -/
structure PDFReaderObj (V : Type) where
  results_path : String
  config : Dict V
  url : V
  table_settings : V
  title_pattern : V
  pdf_file : Attr PdfBytes
deriving DecidableEq

/-- `PDFReader.__init__(config_file, results_path)` after a successful
`load_config` (which returns the parsed YAML mapping unchanged; a
missing file or a parse error is re-raised before this point):

```python
self.results_path = results_path
self.config = self.load_config(config_file)
self.url = self.config["pdf_url"]
self.table_settings = self.config["table_settings"]
self.title_pattern = self.config["pattern"]
```

Each subscript raises `KeyError` when its key is missing.  No statement
assigns `self.pdf_file`, so that attribute slot is `absent`. -/
def pdfreader_init {V : Type} (config_doc : Dict V) (results_path : String) :
    Except PyError (PDFReaderObj V) :=
  match dict_subscript config_doc "pdf_url" with
  | .error e => .error e
  | .ok url =>
      match dict_subscript config_doc "table_settings" with
      | .error e => .error e
      | .ok ts =>
          match dict_subscript config_doc "pattern" with
          | .error e => .error e
          | .ok pat =>
              .ok { results_path := results_path, config := config_doc, url := url,
                    table_settings := ts, title_pattern := pat,
                    pdf_file := Attr.absent }

/-- `PDFReader.extract_content_from_pdf(self)`:

```python
if self.pdf_file is None:
    raise Exception("PDF file not loaded. Please call extract_pdf_from_url() first.")
...
with pdfplumber.open(self.pdf_file) as pdf:
    for page_num, page in enumerate(pdf.pages, start=1): ...
```

Reading `self.pdf_file` raises `AttributeError` when the attribute was
never assigned; the explicit `is None` guard raises the "not loaded"
exception; a failure of `pdfplumber.open` is logged and re-raised
(`processError`); otherwise the page loop runs. -/
def extract_content_from_pdf {V : Type} (obj : PDFReaderObj V) :
    Except PyError (Dict DataFrame) :=
  match getattr obj.pdf_file with
  | .error e => .error e
  | .ok none => .error .notLoadedError
  | .ok (some b) =>
      match b.pages? with
      | none => .error .processError
      | some pages => .ok (extract_content_loop pages)

/-- Filesystem side effects of the result writer.  `makedirs p` is
`os.makedirs(p, exist_ok=True)`: it creates `p` and every missing
parent directory, and succeeds if they already exist. -/
inductive FsEffect where
  | makedirs (path : String)
  | writeFile (path : String) (content : String)
deriving DecidableEq

/-- `os.path.join(a, b)` for a relative second component on POSIX. -/
def os_path_join (a b : String) : String :=
  a ++ "/" ++ b

/-- Python `s.replace(" ", "_")`: every space becomes an underscore. -/
def replaceSpaces (s : String) : String :=
  ⟨s.data.map (fun c => if c = ' ' then '_' else c)⟩

/-- Python `str.lower()` on one character, restricted to ASCII: an
uppercase letter (code 65–90) shifts down by 32, everything else is
unchanged. -/
def lowerChar (c : Char) : Char :=
  if 65 ≤ c.toNat ∧ c.toNat ≤ 90 then Char.ofNat (c.toNat + 32) else c

/-- Python `s.lower()` (ASCII fragment). -/
def pyLower (s : String) : String :=
  ⟨s.data.map lowerChar⟩

/-- The filename computed in `save_as_csv`:
`f"{title}.csv".replace(" ", "_").lower()`. -/
def filename_for (title : String) : String :=
  pyLower (replaceSpaces (title ++ ".csv"))

/-- `df.to_csv(filepath, index=False)` content for cells that contain
no delimiter, quote or newline characters (no quoting is then applied):
the comma-joined header line, then each comma-joined data row, each
line terminated by a newline. -/
def df_to_csv (df : DataFrame) : String :=
  String.intercalate "," df.columns ++ "\n" ++
    String.join (df.rows.map (fun r => String.intercalate "," r ++ "\n"))

/-- Splitting a character list on a separator character; the separator
is consumed, and `n` separators yield `n + 1` (possibly empty) fields. -/
def splitOnChar (sep : Char) : List Char → List (List Char)
  | [] => [[]]
  | c :: cs =>
      match splitOnChar sep cs with
      | [] => [[c]]
      | r :: rs => if c = sep then [] :: r :: rs else (c :: r) :: rs

/-- Reading a delimited text file back: split into newline-terminated
records, drop the empty trailing record, split each record on commas. -/
def read_csv_text (s : String) : List (List String) :=
  ((splitOnChar '\n' s.data).filter (fun line => line ≠ [])).map
    (fun line => (splitOnChar ',' line).map (fun cell => String.mk cell))

/-- `PDFReader.save_as_csv(df, title)`:

```python
results_path = os.path.join(self.results_path, "results")
os.makedirs(results_path, exist_ok=True)
filename = f"{title}.csv".replace(" ", "_").lower()
filepath = os.path.join(results_path, filename)
try:
    df.to_csv(filepath, index=False)
    logging.info(...)
except Exception as e:
    logging.error(...)
```

`writeResult` is the outcome the filesystem gives `df.to_csv`.  The
function returns its effect trace and its (normal or exceptional)
outcome: the `try`/`except` swallows a write failure, so both branches
return normally. -/
def save_as_csv (results_path : String) (df : DataFrame) (title : String)
    (writeResult : Except String Unit) : List FsEffect × Except String Unit :=
  let rp := os_path_join results_path "results"
  let filename := filename_for title
  let filepath := os_path_join rp filename
  ( FsEffect.makedirs rp ::
      (match writeResult with
       | .ok _ => [FsEffect.writeFile filepath (df_to_csv df)]
       | .error _ => []),
    match writeResult with
    | .ok _ => Except.ok ()
    | .error _ => Except.ok () )

/-! ### Helper lemmas about the embedded dictionary operations -/

/-- Looking a key up in a cons cell. -/
theorem dictGet_cons {V : Type} (p : String × V) (rest : Dict V) (k : String) :
    dictGet (p :: rest) k = if p.1 = k then some p.2 else dictGet rest k := by
  by_cases hp : p.1 = k
  · simp [dictGet, List.find?_cons_of_pos, hp]
  · simp only [dictGet, hp, if_false]
    rw [List.find?_cons_of_neg]
    simp [hp]

/-- Assigning an existing key `k` (head case): the head pair keyed `k`
is replaced by `(k, v)` and the tail is rewritten likewise. -/
theorem dictInsert_cons_of_eq {V : Type} (p : String × V) (rest : Dict V)
    (k : String) (v : V) (hp : p.1 = k) :
    dictInsert (p :: rest) k v
      = (k, v) :: rest.map (fun q => if q.1 == k then (k, v) else q) := by
  unfold dictInsert
  rw [if_pos (show ((p :: rest).any fun q => q.1 == k) = true by simp [hp])]
  rw [List.map_cons, if_pos (show (p.1 == k) = true by simp [hp])]

/-- Assigning under a head pair with a different key. -/
theorem dictInsert_cons_of_ne {V : Type} (p : String × V) (rest : Dict V)
    (k : String) (v : V) (hp : ¬p.1 = k) :
    dictInsert (p :: rest) k v = p :: dictInsert rest k v := by
  unfold dictInsert
  rw [show ((p :: rest).any fun q => q.1 == k) = (rest.any fun q => q.1 == k) by simp [hp]]
  by_cases hr : (rest.any fun q => q.1 == k) = true
  · rw [if_pos hr, if_pos hr, List.map_cons,
      if_neg (show ¬((p.1 == k) = true) by simp [hp])]
  · rw [if_neg hr, if_neg hr, List.cons_append]

/-- Replacing the pairs keyed `k` does not disturb lookups of other keys. -/
theorem dictGet_map_assign_ne {V : Type} (k k' : String) (v : V) (hne : k' ≠ k) :
    ∀ d : Dict V,
      dictGet (d.map (fun p => if p.1 == k then (k, v) else p)) k' = dictGet d k'
  | [] => rfl
  | p :: rest => by
      have ih := dictGet_map_assign_ne k k' v hne rest
      by_cases hp : p.1 = k
      · rw [List.map_cons, if_pos (show (p.1 == k) = true by simp [hp])]
        rw [dictGet_cons, dictGet_cons]
        rw [if_neg (show ¬(k, v).1 = k' from fun h => hne h.symm)]
        rw [if_neg (show ¬p.1 = k' from fun h => hne (h.symm.trans hp))]
        exact ih
      · rw [List.map_cons, if_neg (show ¬((p.1 == k) = true) by simp [hp])]
        rw [dictGet_cons, dictGet_cons]
        by_cases hk' : p.1 = k'
        · rw [if_pos hk', if_pos hk']
        · rw [if_neg hk', if_neg hk']
          exact ih

/-- Python dict assignment, observed through lookup: the assigned key
maps to the new value, every other key is untouched. -/
theorem dictGet_insert {V : Type} (k k' : String) (v : V) :
    ∀ d : Dict V,
      dictGet (dictInsert d k v) k' = if k' = k then some v else dictGet d k'
  | [] => by
      show dictGet ([] ++ [(k, v)]) k' = _
      rw [List.nil_append, dictGet_cons]
      by_cases hk : k = k'
      · rw [if_pos hk, if_pos hk.symm]
      · rw [if_neg hk, if_neg (show ¬k' = k from fun h => hk h.symm)]
  | p :: rest => by
      by_cases hp : p.1 = k
      · rw [dictInsert_cons_of_eq p rest k v hp, dictGet_cons]
        by_cases hk : k' = k
        · rw [if_pos (show (k, v).1 = k' from hk.symm), if_pos hk]
        · rw [if_neg (show ¬(k, v).1 = k' from fun h => hk h.symm), if_neg hk]
          rw [dictGet_map_assign_ne k k' v hk rest, dictGet_cons]
          rw [if_neg (show ¬p.1 = k' from fun h => hk (h.symm.trans hp))]
      · rw [dictInsert_cons_of_ne p rest k v hp, dictGet_cons, dictGet_cons]
        by_cases hk' : p.1 = k'
        · rw [if_pos hk', if_pos hk']
          rw [if_neg (show ¬k' = k from fun h => hp (hk'.symm ▸ h))]
        · rw [if_neg hk', if_neg hk']
          exact dictGet_insert k k' v rest

/-- The keys of a dictionary are pairwise distinct.  Dictionaries built
by the page processor satisfy this invariant. -/
def DictNodup {V : Type} (d : Dict V) : Prop :=
  (d.map Prod.fst).Nodup

/-- Assignment preserves key distinctness. -/
theorem dictNodup_insert {V : Type} (d : Dict V) (k : String) (v : V)
    (h : DictNodup d) : DictNodup (dictInsert d k v) := by
  have h' : (d.map Prod.fst).Nodup := h
  unfold DictNodup dictInsert
  by_cases hany : d.any (fun p => p.1 == k) = true
  · rw [if_pos hany]
    have hkeys : (d.map (fun p => if p.1 == k then (k, v) else p)).map Prod.fst
        = d.map Prod.fst := by
      rw [List.map_map]
      apply List.map_congr_left
      intro p _
      by_cases hp : p.1 = k <;> simp [hp]
    rw [hkeys]
    exact h'
  · rw [if_neg hany]
    have hk : k ∉ d.map Prod.fst := by
      intro hmem
      obtain ⟨p, hpmem, hfst⟩ := List.mem_map.mp hmem
      exact hany (List.any_eq_true.mpr ⟨p, hpmem, by simp [hfst]⟩)
    simp [List.nodup_append, h', hk]

/-- A key that is not among the keys looks up to `none`. -/
theorem dictGet_eq_none_of_not_key {V : Type} (k : String) :
    ∀ d : Dict V, k ∉ d.map Prod.fst → dictGet d k = none
  | [] => fun _ => rfl
  | p :: rest => fun h => by
      rw [dictGet_cons]
      simp only [List.map_cons, List.mem_cons, not_or] at h
      rw [if_neg (fun hp => h.1 hp.symm)]
      exact dictGet_eq_none_of_not_key k rest h.2

/-- `d.update(other)`, observed through lookup: a key found in `other`
takes `other`'s value, anything else keeps `d`'s.  (`other` is assumed
key-distinct, as every dictionary in the pipeline is.) -/
theorem dictGet_dict_update {V : Type} :
    ∀ other : Dict V, DictNodup other → ∀ (d : Dict V) (k : String),
      dictGet (dict_update d other) k = (dictGet other k).or (dictGet d k)
  | [], _, d, k => by simp [dict_update, dictGet]
  | p :: rest, hnd, d, k => by
      have hrest : DictNodup rest := (List.nodup_cons.mp hnd).2
      have hp : p.1 ∉ rest.map Prod.fst := (List.nodup_cons.mp hnd).1
      show dictGet (dict_update (dictInsert d p.1 p.2) rest) k = _
      rw [dictGet_dict_update rest hrest (dictInsert d p.1 p.2) k,
        dictGet_insert, dictGet_cons]
      by_cases hk : p.1 = k
      · have hnone : dictGet rest k = none :=
          dictGet_eq_none_of_not_key k rest (hk ▸ hp)
        rw [if_pos (hk.symm), if_pos hk, hnone]
        rfl
      · rw [if_neg (show ¬k = p.1 from fun h => hk h.symm), if_neg hk]

/-- `(v :: l).getLast?` spelled with a default. -/
theorem getLast?_cons_eq {α : Type} (v : α) (l : List α) :
    (v :: l).getLast? = some (l.getLast?.getD v) := by
  cases h : l.getLast? <;> simp [List.getLast?_cons, h]

/-- Folding `dict.update` over a list of key-distinct dictionaries,
observed through lookup: the value comes from the last dictionary
containing the key, else from the initial accumulator. -/
theorem dictGet_foldl_update {V : Type} (k : String) :
    ∀ ds : List (Dict V), (∀ d ∈ ds, DictNodup d) → ∀ init : Dict V,
      dictGet (ds.foldl (fun c d => dict_update c d) init) k =
        ((ds.filterMap (fun d => dictGet d k)).getLast?).or (dictGet init k)
  | [], _, init => by simp
  | d :: rest, hnd, init => by
      simp only [List.foldl_cons]
      rw [dictGet_foldl_update k rest (fun x hx => hnd x (List.mem_cons_of_mem _ hx))
        (dict_update init d)]
      rw [dictGet_dict_update d (hnd d (List.mem_cons_self _ _)) init k]
      cases hd : dictGet d k with
      | none => simp [List.filterMap_cons, hd]
      | some v =>
          simp only [List.filterMap_cons, hd]
          rw [getLast?_cons_eq]
          cases hL : (rest.filterMap (fun d => dictGet d k)).getLast? <;> simp [hL]

/-! ### Helper lemmas about the page processor -/

/-- With no titles on the page, the associator never matches. -/
theorem find_title_for_table_nil (t : Int) : find_title_for_table [] t = none := rfl

/-- A fold whose step fixes every accumulator is the identity. -/
theorem foldl_fix {α β : Type} (f : α → β → α) (h : ∀ a x, f a x = a) :
    ∀ (l : List β) (a : α), l.foldl f a = a
  | [], _ => rfl
  | x :: xs, a => by rw [List.foldl_cons, h]; exact foldl_fix f h xs a

/-- With no titles, every per-table step leaves the dictionary alone. -/
theorem process_one_table_nil_titles (bb : List Int) (acc : Dict DataFrame)
    (it : Nat × List (List String)) : process_one_table [] bb acc it = acc := by
  simp only [process_one_table, find_title_for_table_nil]
  split <;> rfl

/-- A table whose DataFrame construction fails contributes nothing:
the per-table step returns the accumulator unchanged (the exception is
caught by the loop's `try`/`except`). -/
theorem process_one_table_of_bad (titles : List TitleMatch) (bb : List Int)
    (acc : Dict DataFrame) (i : Nat) (t : List (List String))
    (hbad : mk_dataframe t = none) :
    process_one_table titles bb acc (i, t) = acc := by
  simp only [process_one_table, hbad]
  split
  · rfl
  split
  · rfl
  split <;> rfl

/-- Every per-table step preserves key distinctness. -/
theorem dictNodup_process_one_table (titles : List TitleMatch) (bb : List Int)
    (acc : Dict DataFrame) (it : Nat × List (List String))
    (h : DictNodup acc) : DictNodup (process_one_table titles bb acc it) := by
  unfold process_one_table
  split
  · exact h
  split
  · exact h
  split
  · split
    · exact h
    · exact dictNodup_insert acc _ _ h
  · exact h

/-- The per-table fold preserves key distinctness. -/
theorem dictNodup_foldl_process (titles : List TitleMatch) (bb : List Int) :
    ∀ (l : List (Nat × List (List String))) (acc : Dict DataFrame),
      DictNodup acc → DictNodup (l.foldl (process_one_table titles bb) acc)
  | [], _, h => h
  | x :: xs, acc, h => by
      rw [List.foldl_cons]
      exact dictNodup_foldl_process titles bb xs _
        (dictNodup_process_one_table titles bb acc x h)

/-- The page processor always yields a key-distinct dictionary. -/
theorem dictNodup_extract_tables_from_page (page : Page) :
    DictNodup (extract_tables_from_page page) := by
  simp only [extract_tables_from_page]
  split
  · exact List.nodup_nil
  · exact dictNodup_foldl_process _ _ _ _ List.nodup_nil

/-! ### Helper lemmas for the filename derivation -/

/-- `Char.ofNat` round-trip for code points below the surrogate range. -/
theorem char_toNat_ofNat (n : Nat) (h : n < 55296) : (Char.ofNat n).toNat = n := by
  simp [Char.ofNat, Nat.isValidChar, h, Char.ofNatAux, Char.toNat, UInt32.toNat,
    BitVec.toNat_ofNatLt]

/-- Lowercasing commutes with the space-to-underscore substitution:
lowercasing never produces or consumes a space character. -/
theorem lowerChar_replace_comm (c : Char) :
    lowerChar (if c = ' ' then '_' else c)
      = if lowerChar c = ' ' then '_' else lowerChar c := by
  by_cases hc : c = ' '
  · subst hc
    decide
  · rw [if_neg hc]
    have hlow : ¬lowerChar c = ' ' := by
      unfold lowerChar
      split
      · rename_i hab
        intro hEq
        have h1 : (Char.ofNat (c.toNat + 32)).toNat = c.toNat + 32 :=
          char_toNat_ofNat _ (by omega)
        rw [hEq] at h1
        have h2 : (' ' : Char).toNat = 32 := by decide
        rw [h2] at h1
        omega
      · exact hc
    rw [if_neg hlow]

/-! ### The claims -/

/-- C1: the claim fails on the code.  With the single title `"T"` at top
0 and a table top of 5, the title at top 0 is the unique title whose top
is maximal among tops strictly below the table, so the claim demands the
match `"T"`; the code returns no match, because the Python truthiness
test `if title_top:` is false at 0.  Moving the same title to top 1
yields the match, isolating the zero-top case as the failure. -/
theorem find_title_zero_top_dropped :
    find_title_for_table [⟨"T", 0⟩] 5 = none ∧
      find_title_for_table [⟨"T", 1⟩] 5 = some "T" := by
  decide

/-- C2: the claim names the guard's not-loaded error, but the guard is
dead code: `__init__` never assigns `self.pdf_file`, so invoking
document processing before the fetch fails reading the attribute
(`AttributeError`) rather than with the "PDF file not loaded"
exception. -/
theorem extract_before_fetch_attribute_error {V : Type} (config_doc : Dict V)
    (rp : String) (obj : PDFReaderObj V)
    (h : pdfreader_init config_doc rp = Except.ok obj) :
    extract_content_from_pdf obj = Except.error PyError.attributeError := by
  unfold pdfreader_init at h
  cases h1 : dict_subscript config_doc "pdf_url" with
  | error e => rw [h1] at h; simp at h
  | ok url =>
      rw [h1] at h
      cases h2 : dict_subscript config_doc "table_settings" with
      | error e => rw [h2] at h; simp at h
      | ok ts =>
          rw [h2] at h
          cases h3 : dict_subscript config_doc "pattern" with
          | error e => rw [h3] at h; simp at h
          | ok pat =>
              rw [h3] at h
              simp only [Except.ok.injEq] at h
              subst h
              rfl

/-- C2 witness: a reader freshly constructed from a complete
configuration, processed before any fetch. -/
theorem extract_before_fetch_attribute_error_witness :
    extract_content_from_pdf
        { results_path := "out",
          config := [("pdf_url", 0), ("table_settings", 1), ("pattern", 2)],
          url := 0, table_settings := 1, title_pattern := 2,
          pdf_file := Attr.absent } =
      Except.error PyError.attributeError :=
  extract_before_fetch_attribute_error (V := Nat)
    [("pdf_url", 0), ("table_settings", 1), ("pattern", 2)] "out"
    { results_path := "out",
      config := [("pdf_url", 0), ("table_settings", 1), ("pattern", 2)],
      url := 0, table_settings := 1, title_pattern := 2,
      pdf_file := Attr.absent } rfl

/-- C3: a configuration mapping missing any of the three required keys
makes reader construction fail with `KeyError` — the subscripts in
`__init__` raise before any reader object is produced, so no reader
with a partly filled configuration ever exists. -/
theorem init_missing_key_fails {V : Type} (config_doc : Dict V) (rp : String)
    (h : dictGet config_doc "pdf_url" = none ∨
      dictGet config_doc "table_settings" = none ∨
      dictGet config_doc "pattern" = none) :
    pdfreader_init config_doc rp = Except.error PyError.keyError := by
  unfold pdfreader_init dict_subscript
  rcases h with h | h | h
  · rw [h]
  · cases h1 : dictGet config_doc "pdf_url" with
    | none => rfl
    | some url => rw [h]
  · cases h1 : dictGet config_doc "pdf_url" with
    | none => rfl
    | some url =>
        cases h2 : dictGet config_doc "table_settings" with
        | none => rfl
        | some ts => rw [h]

/-- C3 witness: a configuration carrying only `pdf_url`. -/
theorem init_missing_key_fails_witness :
    pdfreader_init (V := Nat) [("pdf_url", 0)] "out"
      = Except.error PyError.keyError :=
  init_missing_key_fails [("pdf_url", 0)] "out" (Or.inr (Or.inl rfl))

/-- C4: document processing folds the pages in document order and
merges with `dict.update`; looked up at any title key, the combined
dictionary holds exactly the value of the last page dictionary that
contains the key (`getLast?` of the per-page lookups), i.e. duplicate
titles resolve last-write-wins. -/
theorem extract_content_last_write_wins (pages : List Page) (k : String) :
    dictGet (extract_content_loop pages) k =
      ((pages.map extract_tables_from_page).filterMap (fun d => dictGet d k)).getLast? := by
  have hfold : extract_content_loop pages
      = (pages.map extract_tables_from_page).foldl (fun c d => dict_update c d) [] :=
    (List.foldl_map extract_tables_from_page (fun c d => dict_update c d) pages []).symm
  rw [hfold,
    dictGet_foldl_update k (pages.map extract_tables_from_page)
      (fun d hd => by
        obtain ⟨p, _, rfl⟩ := List.mem_map.mp hd
        exact dictNodup_extract_tables_from_page p)
      []]
  rw [show dictGet ([] : Dict DataFrame) k = none from rfl, Option.or_none]

/-- C5: a table whose DataFrame construction fails is skipped — the
per-table exception is caught — and the rest of the page is still
processed: the page's dictionary equals the fold over the remaining
enumerated tables, the malformed entry contributing nothing. -/
theorem malformed_table_skipped (page : Page)
    (l1 l2 : List (Nat × List (List String))) (i : Nat) (t : List (List String))
    (henum : page.tables.enum = l1 ++ (i, t) :: l2)
    (hbad : mk_dataframe t = none) :
    extract_tables_from_page page =
      List.foldl (process_one_table (extract_titles_from_page page) page.bboxTops)
        (List.foldl (process_one_table (extract_titles_from_page page) page.bboxTops) [] l1)
        l2 := by
  have hne : page.tables.isEmpty = false := by
    cases htab : page.tables with
    | nil =>
        exfalso
        rw [htab] at henum
        have hlen := congrArg List.length henum
        simp at hlen
        omega
    | cons a as => rfl
  simp only [extract_tables_from_page, hne, Bool.false_eq_true, if_false]
  rw [henum, List.foldl_append, List.foldl_cons,
    process_one_table_of_bad _ _ _ _ _ hbad]

/-- C5 witness: three tables, the middle one ragged (a one-cell data
row under a two-column header), on a page with one title above all. -/
theorem malformed_table_skipped_witness :
    extract_tables_from_page
        ⟨[⟨"T1", 1⟩], [[["A"], ["1"]], [["A", "B"], ["1"]], [["B"], ["2"]]], [10, 10, 10]⟩ =
      List.foldl
        (process_one_table
          (extract_titles_from_page
            ⟨[⟨"T1", 1⟩], [[["A"], ["1"]], [["A", "B"], ["1"]], [["B"], ["2"]]], [10, 10, 10]⟩)
          [10, 10, 10])
        (List.foldl
          (process_one_table
            (extract_titles_from_page
              ⟨[⟨"T1", 1⟩], [[["A"], ["1"]], [["A", "B"], ["1"]], [["B"], ["2"]]], [10, 10, 10]⟩)
            [10, 10, 10])
          [] [(0, [["A"], ["1"]])])
        [(2, [["B"], ["2"]])] :=
  malformed_table_skipped
    ⟨[⟨"T1", 1⟩], [[["A"], ["1"]], [["A", "B"], ["1"]], [["B"], ["2"]]], [10, 10, 10]⟩
    [(0, [["A"], ["1"]])] [(2, [["B"], ["2"]])] 1 [["A", "B"], ["1"]]
    (by decide) (by decide)

/-- C6: the result writer's first effect ensures `<results_path>/results`
exists (`os.makedirs` with `exist_ok=True`, which also creates the
output directory itself when missing), and it returns normally for
every write outcome — a failing `df.to_csv` is caught and logged, so
the run can continue with the remaining tables. -/
theorem save_as_csv_returns_normally (results_path : String) (df : DataFrame)
    (title : String) (writeResult : Except String Unit) :
    (save_as_csv results_path df title writeResult).2 = Except.ok () ∧
      (save_as_csv results_path df title writeResult).1.head?
        = some (FsEffect.makedirs (os_path_join results_path "results")) := by
  cases writeResult <;> simp [save_as_csv]

/-- C7: on a page with zero detected titles every table is dropped: the
page processor returns the empty dictionary, and merging that into the
combined dictionary leaves it unchanged, so none of the page's tables
reaches the combined result. -/
theorem no_titles_page_dropped (page : Page) (combined : Dict DataFrame)
    (h : page.titles = []) :
    extract_tables_from_page page = [] ∧
      dict_update combined (extract_tables_from_page page) = combined := by
  have h1 : extract_tables_from_page page = [] := by
    simp only [extract_tables_from_page, extract_titles_from_page, h]
    split
    · rfl
    · exact foldl_fix _ (fun a x => process_one_table_nil_titles page.bboxTops a x) _ []
  exact ⟨h1, by rw [h1]; rfl⟩

/-- C7 witness: a page carrying one table and no titles, merged into a
nonempty combined dictionary. -/
theorem no_titles_page_dropped_witness :
    extract_tables_from_page ⟨[], [[["A"], ["1"]]], [5]⟩ = [] ∧
      dict_update [("X", (⟨["A"], [["1"]]⟩ : DataFrame))]
          (extract_tables_from_page ⟨[], [[["A"], ["1"]]], [5]⟩)
        = [("X", (⟨["A"], [["1"]]⟩ : DataFrame))] :=
  no_titles_page_dropped ⟨[], [[["A"], ["1"]]], [5]⟩
    [("X", (⟨["A"], [["1"]]⟩ : DataFrame))] rfl

/-- C8: filename derivation is a pure function of the title equal to
the specified one — the title lowercased, spaces replaced by
underscores, `".csv"` appended; `"Table One"` yields
`"table_one.csv"`; a filesystem-unsafe character such as `'/'` passes
through unsanitised. -/
theorem filename_derivation (title : String) :
    filename_for title = replaceSpaces (pyLower title) ++ ".csv" ∧
      filename_for "Table One" = "table_one.csv" ∧
      filename_for "a/b" = "a/b.csv" := by
  refine ⟨?_, by decide, by decide⟩
  apply String.ext
  show ((title ++ ".csv").data.map (fun c => if c = ' ' then '_' else c)).map lowerChar
      = (replaceSpaces (pyLower title) ++ ".csv").data
  rw [String.data_append, String.data_append]
  show ((title.data ++ ".csv".data).map (fun c => if c = ' ' then '_' else c)).map lowerChar
      = ((title.data.map lowerChar).map (fun c => if c = ' ' then '_' else c)) ++ ".csv".data
  rw [List.map_append, List.map_append, List.map_map, List.map_map, List.map_map]
  congr 1
  apply List.map_congr_left
  intro c _
  simp only [Function.comp_apply]
  exact lowerChar_replace_comm c

/-- C9: the writer's delimited output for header `["A","B"]` and the
single data row `["1","2"]`, re-read as delimited text, reproduces the
header and row values exactly. -/
theorem csv_round_trip :
    read_csv_text (df_to_csv ⟨["A", "B"], [["1", "2"]]⟩) = [["A", "B"], ["1", "2"]] := by
  decide

/-- C10: whenever the associator returns a title for a table, the
returned string is some qualifying title's text with every newline
character removed; in particular it — and hence every result-mapping
key and derived filename — contains no newline. -/
theorem associator_newline_free (titles : List TitleMatch) (table_top : Int)
    (s : String) (h : find_title_for_table titles table_top = some s) :
    (∃ ti ∈ titles, s = stripNewlines ti.text) ∧ '\n' ∉ s.data := by
  simp only [find_title_for_table] at h
  cases hmax : ((titles.filter (fun t => t.top < table_top)).map (fun t => t.top)).max? with
  | none =>
      rw [hmax] at h
      simp at h
  | some tt =>
      rw [hmax] at h
      simp only [] at h
      by_cases htt : tt ≠ 0
      · rw [if_pos htt] at h
        obtain ⟨ti, hfind, hs⟩ := Option.map_eq_some'.mp h
        refine ⟨⟨ti, List.mem_of_find?_eq_some hfind, hs.symm⟩, ?_⟩
        rw [← hs]
        show '\n' ∉ ti.text.data.filter (fun c => c ≠ '\n')
        simp
      · rw [if_neg htt] at h
        exact Option.noConfusion h

/-- C10 witness: a title whose text contains a newline. -/
theorem associator_newline_free_witness :
    (∃ ti ∈ [({ text := "Tab\nle", top := 10 } : TitleMatch)],
        "Table" = stripNewlines ti.text) ∧
      '\n' ∉ "Table".data :=
  associator_newline_free [⟨"Tab\nle", 10⟩] 20 "Table" (by decide)

end PdfReader
